import Mathlib

/-!
Verification of the ME 405 turret targeting and motion-control core.

Shallow embedding of the repository's Python code:
  - `encoder_reader.py` : class `Encoder` (counter unwrap tracking),
  - `proportional_controller.py` : class `ProportionalController`,
  - `main.py` : class `turret_gen_class` (target localizer math and the
    cooperative rotate / image task state machines).

MicroPython integers are modelled as `ℤ`, Python floats as `ℚ` (all float
values occurring in the relevant code paths are exactly representable, e.g.
`(65535 + 1) / 2 = 32768.0`), and real-valued trigonometry as `ℝ`.
Hardware collaborators (timer counter, sensed position, wall clock, camera
frames) enter each step as explicit inputs; values sent to the actuator and
servo collaborators are returned as explicit outputs.
-/

/-! ## Encoder (encoder_reader.py)

The `Encoder` class keeps a logical `position` and the previously sampled
raw timer count `prev_count`.  The timer is configured with auto-reload
value 65535, so the raw counter wraps modulo 65536.
-/

/-- State of the `Encoder` tracker: the accumulated logical position and the
previously sampled raw counter value. -/
@[ext]
structure EncoderState where
  position : ℤ
  prev_count : ℤ
deriving DecidableEq

/-- `Encoder.update_position` from `encoder_reader.py`.  `ar` is the timer
auto-reload value (`self.timer.period()`, set to 65535 in the constructor)
and `count` the current raw timer count.  The underflow comparison value
`val = (ar + 1) / 2` is a Python float division, exact for these magnitudes,
hence modelled in `ℚ`. -/
def Encoder.update_position (ar : ℤ) (s : EncoderState) (count : ℤ) : EncoderState :=
  let delta : ℤ := count - s.prev_count
  let val : ℚ := ((ar : ℚ) + 1) / 2
  let neg_val : ℚ := -1 * val
  let delta' : ℤ :=
    if (delta : ℚ) > val then delta - (ar + 1)
    else if (delta : ℚ) < neg_val then delta + (ar + 1)
    else delta
  { position := s.position + delta', prev_count := count }

/-- `Encoder.read`: performs the update step and returns the updated state
together with the returned position. -/
def Encoder.read (ar : ℤ) (s : EncoderState) (count : ℤ) : EncoderState × ℤ :=
  let s' := Encoder.update_position ar s count
  (s', s'.position)

/-- `Encoder.zero`: resets only the logical position; `prev_count` is kept. -/
def Encoder.zero (s : EncoderState) : EncoderState :=
  { s with position := 0 }

/-- Apply `Encoder.update_position` to a whole sequence of raw counter
samples (one `read` per sample, return value discarded). -/
def runEncoder (ar : ℤ) (s : EncoderState) (samples : List ℤ) : EncoderState :=
  samples.foldl (Encoder.update_position ar) s

/-- The raw counter samples produced by a hardware counter that starts at
`c` and moves by the true deltas `ds`, wrapping modulo 65536. -/
def wrapSamples (c : ℤ) : List ℤ → List ℤ
  | [] => []
  | d :: ds => ((c + d) % 65536) :: wrapSamples ((c + d) % 65536) ds

lemma encoder_val_cast (x : ℤ) :
    ((x : ℚ) > (((65535 : ℤ) : ℚ) + 1) / 2) ↔ 32768 < x := by
  rw [show (((65535 : ℤ) : ℚ) + 1) / 2 = ((32768 : ℤ) : ℚ) by norm_num]
  exact ⟨fun h => by exact_mod_cast h, fun h => by exact_mod_cast h⟩

lemma encoder_neg_val_cast (x : ℤ) :
    ((x : ℚ) < -1 * ((((65535 : ℤ) : ℚ) + 1) / 2)) ↔ x < -32768 := by
  rw [show -1 * ((((65535 : ℤ) : ℚ) + 1) / 2) = ((-32768 : ℤ) : ℚ) by norm_num]
  exact ⟨fun h => by exact_mod_cast h, fun h => by exact_mod_cast h⟩

/-- One unwrap step is exact: if the previous raw sample is in range and the
true movement `d` satisfies `|d| < 32768` (strictly less than half the
counter period 65536), then updating on the wrapped sample adds exactly `d`
to the position. -/
lemma update_position_exact (s : EncoderState) (d : ℤ)
    (h0 : 0 ≤ s.prev_count) (h1 : s.prev_count ≤ 65535) (hd : |d| < 32768) :
    Encoder.update_position 65535 s ((s.prev_count + d) % 65536) =
      ⟨s.position + d, (s.prev_count + d) % 65536⟩ := by
  have hc0 : 0 ≤ (s.prev_count + d) % 65536 :=
    Int.emod_nonneg _ (by norm_num)
  have hc1 : (s.prev_count + d) % 65536 < 65536 :=
    Int.emod_lt_of_pos _ (by norm_num)
  have hq : s.prev_count + d - (s.prev_count + d) % 65536 =
      65536 * ((s.prev_count + d) / 65536) := by
    rw [Int.emod_def]; ring
  have habs : -32768 < d ∧ d < 32768 := abs_lt.mp hd
  simp only [Encoder.update_position, encoder_val_cast, encoder_neg_val_cast]
  set c := (s.prev_count + d) % 65536 with hc
  set q := (s.prev_count + d) / 65536 with hqdef
  have hq3 : q = -1 ∨ q = 0 ∨ q = 1 := by omega
  ext
  · show s.position + _ = s.position + d
    rcases hq3 with h | h | h <;> (rw [h] at hq; split_ifs <;> omega)
  · rfl

/-- Unwrapping a whole sample sequence is exact when every per-step true
delta has magnitude strictly below half the counter period. -/
lemma runEncoder_exact (ds : List ℤ) (s : EncoderState)
    (h0 : 0 ≤ s.prev_count) (h1 : s.prev_count ≤ 65535)
    (hd : ∀ d ∈ ds, |d| < 32768) :
    runEncoder 65535 s (wrapSamples s.prev_count ds) =
      ⟨s.position + ds.sum, (wrapSamples s.prev_count ds).getLastD s.prev_count⟩ := by
  induction ds generalizing s with
  | nil => simp [runEncoder, wrapSamples]
  | cons d ds ih =>
    have hstep := update_position_exact s d h0 h1 (hd d (List.mem_cons_self d ds))
    have hc0 : 0 ≤ (s.prev_count + d) % 65536 := Int.emod_nonneg _ (by norm_num)
    have hc1 : (s.prev_count + d) % 65536 < 65536 := Int.emod_lt_of_pos _ (by norm_num)
    have ihs := ih (⟨s.position + d, (s.prev_count + d) % 65536⟩ : EncoderState)
      hc0 (show (s.prev_count + d) % 65536 ≤ 65535 by omega)
      (fun x hx => hd x (List.mem_cons_of_mem d hx))
    simp only [wrapSamples, runEncoder, List.foldl_cons] at *
    rw [hstep, ihs]
    ext
    · show s.position + d + ds.sum = s.position + (d :: ds).sum
      simp [List.sum_cons]; ring
    · show (wrapSamples ((s.prev_count + d) % 65536) ds).getLastD ((s.prev_count + d) % 65536) =
        (((s.prev_count + d) % 65536) :: wrapSamples ((s.prev_count + d) % 65536) ds).getLastD s.prev_count
      cases wrapSamples ((s.prev_count + d) % 65536) ds <;> simp [List.getLastD]

/-- C1 (amended).  Unwrap correctness for per-step true deltas of magnitude
strictly below half the counter period (half = (P+1)/2 = 32768 for
P = 65535): the tracked position after applying the updates equals the sum
of the true deltas, regardless of how often the raw counter wraps; and the
counter step 65000 to 500 (raw delta -64500) unwraps to true delta +1036. -/
theorem C1_unwrap_correct (ds : List ℤ) (s : EncoderState)
    (h0 : 0 ≤ s.prev_count) (h1 : s.prev_count ≤ 65535)
    (hd : ∀ d ∈ ds, |d| < 32768) :
    (runEncoder 65535 s (wrapSamples s.prev_count ds)).position = s.position + ds.sum ∧
    (runEncoder 65535 ⟨0, 65000⟩ [500]).position = 1036 := by
  constructor
  · rw [runEncoder_exact ds s h0 h1 hd]
  · simp only [runEncoder, List.foldl, Encoder.update_position,
      encoder_val_cast, encoder_neg_val_cast]
    norm_num

/-- Witness for C1: a concrete wrapping run.  Starting from raw counter
65000, a true movement of +1036 wraps the raw counter to 500, and the
tracked position comes out as +1036, the sum of the true deltas. -/
theorem C1_unwrap_correct_witness :
    (0 : ℤ) ≤ (⟨0, 65000⟩ : EncoderState).prev_count ∧
    (⟨0, 65000⟩ : EncoderState).prev_count ≤ 65535 ∧
    (∀ d ∈ ([1036] : List ℤ), |d| < 32768) ∧
    (runEncoder 65535 ⟨0, 65000⟩ (wrapSamples 65000 [1036])).position =
      (⟨0, 65000⟩ : EncoderState).position + ([1036] : List ℤ).sum :=
  ⟨by decide, by decide, by decide,
    (C1_unwrap_correct [1036] ⟨0, 65000⟩ (by decide) (by decide) (by decide)).1⟩

/-- C1 counterexample to the claim as stated: (a) the counter step
65000 to 500 unwraps to +1036, not the claimed +1035; (b) at the boundary
|d| = 32768 allowed by the claim's "at most half", the unwrap is wrong:
from raw counter 40000 a true movement of +32768 gives the wrapped sample
7232, but the tracked position moves by -32768. -/
theorem C1_counterexample :
    (runEncoder 65535 ⟨0, 65000⟩ [500]).position ≠ 1035 ∧
    ((7232 : ℤ) = (40000 + 32768) % 65536 ∧ |(32768 : ℤ)| ≤ 32768 ∧
      (runEncoder 65535 ⟨0, 40000⟩ [7232]).position ≠ 32768) := by
  refine ⟨?_, by decide, by decide, ?_⟩ <;>
    (simp only [runEncoder, List.foldl, Encoder.update_position,
      encoder_val_cast, encoder_neg_val_cast];
     norm_num)

/-- C7 (amended).  `Encoder.zero` resets only the logical position: after
`zero()`, two reads with the hardware counter unchanged both return 0, and
a subsequent counter movement of `d` with `|d|` strictly below half the
counter period yields position `d`. -/
theorem C7_zero_nondestructive (s : EncoderState) (d : ℤ)
    (h0 : 0 ≤ s.prev_count) (h1 : s.prev_count ≤ 65535) (hd : |d| < 32768) :
    (Encoder.read 65535 (Encoder.zero s) s.prev_count).2 = 0 ∧
    (Encoder.read 65535 (Encoder.read 65535 (Encoder.zero s) s.prev_count).1
      s.prev_count).2 = 0 ∧
    (Encoder.read 65535 (Encoder.read 65535 (Encoder.zero s) s.prev_count).1
      ((s.prev_count + d) % 65536)).2 = d := by
  have hz : ∀ p : ℤ, Encoder.zero ⟨p, s.prev_count⟩ = ⟨0, s.prev_count⟩ := fun p => rfl
  have hread0 : Encoder.update_position 65535 (⟨0, s.prev_count⟩ : EncoderState)
      ((s.prev_count + 0) % 65536) = ⟨0 + 0, (s.prev_count + 0) % 65536⟩ :=
    update_position_exact ⟨0, s.prev_count⟩ 0 h0 h1 (by decide)
  have hself : (s.prev_count + 0) % 65536 = s.prev_count := by omega
  rw [hself] at hread0
  have hread0' : Encoder.update_position 65535 (⟨0, s.prev_count⟩ : EncoderState)
      s.prev_count = ⟨0, s.prev_count⟩ := by
    rw [hread0]; norm_num
  have hzs : Encoder.zero s = (⟨0, s.prev_count⟩ : EncoderState) := rfl
  have hstep := update_position_exact (⟨0, s.prev_count⟩ : EncoderState) d h0 h1 hd
  refine ⟨?_, ?_, ?_⟩
  · show (Encoder.update_position 65535 (Encoder.zero s) s.prev_count).position = 0
    rw [hzs, hread0']
  · show (Encoder.update_position 65535
      (Encoder.update_position 65535 (Encoder.zero s) s.prev_count) s.prev_count).position = 0
    rw [hzs, hread0', hread0']
  · show (Encoder.update_position 65535
      (Encoder.update_position 65535 (Encoder.zero s) s.prev_count)
      ((s.prev_count + d) % 65536)).position = d
    rw [hzs, hread0', hstep]
    show (0 : ℤ) + d = d
    omega

/-- Witness for C7: zeroing at raw counter 40000 with stale position 123,
then reading twice with the counter unchanged gives 0 twice, and a
subsequent true movement of +1000 reads back as position 1000. -/
theorem C7_zero_nondestructive_witness :
    (0 : ℤ) ≤ (⟨123, 40000⟩ : EncoderState).prev_count ∧
    (⟨123, 40000⟩ : EncoderState).prev_count ≤ 65535 ∧ |(1000 : ℤ)| < 32768 ∧
    ((Encoder.read 65535 (Encoder.zero ⟨123, 40000⟩) 40000).2 = 0 ∧
      (Encoder.read 65535 (Encoder.read 65535 (Encoder.zero ⟨123, 40000⟩) 40000).1
        40000).2 = 0 ∧
      (Encoder.read 65535 (Encoder.read 65535 (Encoder.zero ⟨123, 40000⟩) 40000).1
        ((40000 + 1000) % 65536)).2 = 1000) :=
  ⟨by decide, by decide, by decide,
    C7_zero_nondestructive ⟨123, 40000⟩ 1000 (by decide) (by decide) (by decide)⟩

/-- C7 counterexample to the claim as stated: at the boundary movement
d = -32768 (magnitude exactly half, allowed by the claim's "at most half"),
zeroing at raw counter 1000 and then moving the counter down by 32768
(wrapped sample 33768) reads back +32768, not -32768. -/
theorem C7_counterexample :
    |(-32768 : ℤ)| ≤ 32768 ∧ (33768 : ℤ) = (1000 + -32768) % 65536 ∧
    (Encoder.read 65535 (Encoder.read 65535 (Encoder.zero ⟨77, 1000⟩) 1000).1
      33768).2 ≠ -32768 := by
  refine ⟨by decide, by decide, ?_⟩
  simp only [Encoder.read, Encoder.zero, Encoder.update_position,
    encoder_val_cast, encoder_neg_val_cast]
  norm_num

/-! ## ProportionalController (proportional_controller.py)

Gains, setpoint and target velocity may be Python floats, modelled as `ℚ`;
the sensed position is an integer (encoder counts).  The `actuate` and
`sense` collaborators are made explicit: `sense`'s return value is an input
of `run`, and the value passed to `actuate` is an output of `run`.  The
elapsed time `utime.ticks_diff(utime.ticks_ms(), start_time)` is a wall
clock read, passed in as the explicit input `elapsed`.
MicroPython floor division `//` on integers is `Int.fdiv`.
-/

/-- Algorithmic state of a `ProportionalController` instance. -/
structure PCState where
  Kp : ℚ
  Kd : ℚ
  setpoint : ℚ
  setvel : ℚ
  prev_pos : ℤ
  timeQ : List ℤ
  positionQ : List ℤ
deriving DecidableEq

/-- Result of one `ProportionalController.run` call: the new controller
state, the value passed to the `actuate` collaborator, and the returned
value. -/
structure PCRunResult where
  state : PCState
  actuate_arg : ℚ
  ret : ℚ
deriving DecidableEq

/-- `ProportionalController.run(interval, start_time)`.  `elapsed` is the
measured time difference appended to the time queue, `current_position` the
value returned by the `sense` collaborator during this call. -/
def ProportionalController.run (s : PCState) (interval : ℤ) (elapsed : ℤ)
    (current_position : ℤ) : PCRunResult :=
  let s1 : PCState := { s with timeQ := s.timeQ ++ [elapsed],
                               positionQ := s.positionQ ++ [current_position] }
  let current_velocity : ℤ := ((current_position - s.prev_pos) * 1000).fdiv interval
  let pwm : ℚ := s.Kp * (s.setpoint - (current_position : ℚ)) +
                 s.Kd * (s.setvel - (current_velocity : ℚ))
  { state := { s1 with prev_pos := current_position }, actuate_arg := pwm, ret := pwm }

/-- `ProportionalController.set_setpoint`. -/
def ProportionalController.set_setpoint (s : PCState) (setpoint : ℚ) : PCState :=
  { s with setpoint := setpoint }

/-- `ProportionalController.__init__`: initial algorithmic state; in
particular `prev_pos` starts at 0 regardless of the actuator's real
position. -/
def ProportionalController.init (Kp Kd setpoint setvel : ℚ) : PCState :=
  { Kp := Kp, Kd := Kd, setpoint := setpoint, setvel := setvel,
    prev_pos := 0, timeQ := [], positionQ := [] }

/-- The PD control law exactly as the spec states it, with true (rational)
division in the velocity estimate.  Used to compare the code's behaviour
against the spec's formula. -/
def spec_run_u (Kp Kd setpoint setvel : ℚ) (prev_pos pos interval : ℤ) : ℚ :=
  Kp * (setpoint - (pos : ℚ)) +
  Kd * (setvel - ((pos : ℚ) - (prev_pos : ℚ)) * 1000 / (interval : ℚ))

/-- A Python value passed to a gain setter: an `int`, a `float`, or some
non-numeric value (`type(x)` neither `int` nor `float`). -/
inductive PyNum where
  | int : ℤ → PyNum
  | float : ℚ → PyNum
  | nonNumeric : String → PyNum
deriving DecidableEq

/-- Whether `type(v) is int` or `type(v) is float`. -/
def PyNum.isNumber : PyNum → Bool
  | .int _ => true
  | .float _ => true
  | .nonNumeric _ => false

/-- The numeric value of a `PyNum` (0 for non-numeric values; only ever
used under `isNumber`). -/
def PyNum.val : PyNum → ℚ
  | .int n => (n : ℚ)
  | .float q => q
  | .nonNumeric _ => 0

/-- Result of a gain setter: the (possibly unchanged) controller state and
the raised `ValueError` message, if any.  A raised error leaves the stored
state untouched. -/
structure GainSetResult where
  state : PCState
  error : Option String
deriving DecidableEq

/-- `ProportionalController.set_Kp`: raises `ValueError` unless the value
is an `int` or `float` that is strictly positive. -/
def ProportionalController.set_Kp (s : PCState) (Kp : PyNum) : GainSetResult :=
  match Kp with
  | .nonNumeric _ => ⟨s, some "Kp value should be a positive nonzero number."⟩
  | .int n =>
      if n ≤ 0 then ⟨s, some "Kp value should be a positive nonzero number."⟩
      else ⟨{ s with Kp := (n : ℚ) }, none⟩
  | .float q =>
      if q ≤ 0 then ⟨s, some "Kp value should be a positive nonzero number."⟩
      else ⟨{ s with Kp := q }, none⟩

/-- `ProportionalController.set_Kd`: raises `ValueError` unless the value
is an `int` or `float`; any numeric value (also 0 or negative) is stored. -/
def ProportionalController.set_Kd (s : PCState) (Kd : PyNum) : GainSetResult :=
  match Kd with
  | .nonNumeric _ => ⟨s, some "Kd value should be a number."⟩
  | .int n => ⟨{ s with Kd := (n : ℚ) }, none⟩
  | .float q => ⟨{ s with Kd := q }, none⟩

/-- C4 (amended).  One `run(interval, start_time)` call with `interval > 0`:
the returned value and the value passed to the `actuate` collaborator both
equal `u = Kp*(setpoint - p) + Kd*(setvel - v)` where `p` is the position
sensed during the call and `v = (p - prev_pos) * 1000 // interval` with
MicroPython floor division; `u` reaches the actuator unclamped and
`prev_pos` is updated to `p`. -/
theorem C4_run_control_law (s : PCState) (interval elapsed pos : ℤ)
    (hint : 0 < interval) :
    (ProportionalController.run s interval elapsed pos).ret =
      s.Kp * (s.setpoint - (pos : ℚ)) +
      s.Kd * (s.setvel - ((((pos - s.prev_pos) * 1000).fdiv interval : ℤ) : ℚ)) ∧
    (ProportionalController.run s interval elapsed pos).actuate_arg =
      (ProportionalController.run s interval elapsed pos).ret ∧
    (ProportionalController.run s interval elapsed pos).state.prev_pos = pos :=
  ⟨rfl, rfl, rfl⟩

/-- Witness for C4 at a concrete call: gains 2 and 3, setpoint 7, sensed
position 4, interval 10 ms. -/
theorem C4_run_control_law_witness :
    (0 : ℤ) < 10 ∧
    ((ProportionalController.run ⟨2, 3, 7, 0, 0, [], []⟩ 10 5 4).ret =
      2 * ((7 : ℚ) - ((4 : ℤ) : ℚ)) +
      3 * ((0 : ℚ) - (((((4 : ℤ) - 0) * 1000).fdiv 10 : ℤ) : ℚ)) ∧
    (ProportionalController.run ⟨2, 3, 7, 0, 0, [], []⟩ 10 5 4).actuate_arg =
      (ProportionalController.run ⟨2, 3, 7, 0, 0, [], []⟩ 10 5 4).ret ∧
    (ProportionalController.run ⟨2, 3, 7, 0, 0, [], []⟩ 10 5 4).state.prev_pos = 4) :=
  ⟨by decide, C4_run_control_law ⟨2, 3, 7, 0, 0, [], []⟩ 10 5 4 (by decide)⟩

/-- C4 counterexample to the claim as stated: the code computes the
velocity estimate with floor division, not true division.  With
`interval = 3 > 0`, `Kp = 0`, `Kd = 1`, `setpoint = setvel = 0`,
`prev_pos = 0` and sensed position 1, the code returns
`-(1000 // 3) = -333`, while the claim's formula gives `-1000/3`. -/
theorem C4_counterexample :
    (0 : ℤ) < 3 ∧
    (ProportionalController.run ⟨0, 1, 0, 0, 0, [], []⟩ 3 0 1).ret ≠
      spec_run_u 0 1 0 0 0 1 3 := by
  constructor
  · decide
  · simp only [ProportionalController.run, spec_run_u,
      show (((1 : ℤ) - 0) * 1000).fdiv 3 = 333 from rfl]
    norm_num

/-- C5 (amended).  When the derivative-error contribution
`Kd*(setvel - velocity)` vanishes, increasing `Kp` strictly increases
`|u|` whenever the setpoint differs from the measured position; and
`u = 0` whenever the measured position equals the setpoint and the
velocity estimate equals the target velocity. -/
theorem C5_pd_monotone (Kp Kp' Kd sp sv : ℚ) (prev pos interval elapsed : ℤ)
    (hKp : 0 < Kp) (hlt : Kp < Kp') (hint : 0 < interval) :
    ((sp ≠ (pos : ℚ)) →
      Kd * (sv - ((((pos - prev) * 1000).fdiv interval : ℤ) : ℚ)) = 0 →
      |(ProportionalController.run ⟨Kp, Kd, sp, sv, prev, [], []⟩ interval elapsed pos).ret| <
      |(ProportionalController.run ⟨Kp', Kd, sp, sv, prev, [], []⟩ interval elapsed pos).ret|) ∧
    ((sp = (pos : ℚ) ∧ sv = ((((pos - prev) * 1000).fdiv interval : ℤ) : ℚ)) →
      (ProportionalController.run ⟨Kp, Kd, sp, sv, prev, [], []⟩ interval elapsed pos).ret = 0) := by
  constructor
  · intro hne hzero
    show |Kp * (sp - (pos : ℚ)) + Kd * (sv - _)| < |Kp' * (sp - (pos : ℚ)) + Kd * (sv - _)|
    rw [hzero, add_zero, add_zero, abs_mul, abs_mul]
    have he : 0 < |sp - (pos : ℚ)| := abs_pos.mpr (sub_ne_zero.mpr hne)
    have h1 : |Kp| = Kp := abs_of_pos hKp
    have h2 : |Kp'| = Kp' := abs_of_pos (lt_trans hKp hlt)
    rw [h1, h2]
    exact mul_lt_mul_of_pos_right hlt he
  · rintro ⟨h1, h2⟩
    show Kp * (sp - (pos : ℚ)) + Kd * (sv - _) = 0
    rw [h1, h2]
    ring

/-- Witness for C5: gains 1 and 2 with zero derivative gain, setpoint 5,
position 0, interval 10 ms. -/
theorem C5_pd_monotone_witness :
    (0 : ℚ) < 1 ∧ (1 : ℚ) < 2 ∧ (0 : ℤ) < 10 ∧
    ((((5 : ℚ) ≠ ((0 : ℤ) : ℚ)) →
      (0 : ℚ) * ((0 : ℚ) - (((((0 : ℤ) - 0) * 1000).fdiv 10 : ℤ) : ℚ)) = 0 →
      |(ProportionalController.run ⟨1, 0, 5, 0, 0, [], []⟩ 10 0 0).ret| <
      |(ProportionalController.run ⟨2, 0, 5, 0, 0, [], []⟩ 10 0 0).ret|) ∧
    (((5 : ℚ) = ((0 : ℤ) : ℚ) ∧ (0 : ℚ) = ((((0 : ℤ) - 0) * 1000).fdiv 10 : ℤ)) →
      (ProportionalController.run ⟨1, 0, 5, 0, 0, [], []⟩ 10 0 0).ret = 0)) :=
  ⟨by decide, by decide, by decide,
    C5_pd_monotone 1 2 0 5 0 0 0 10 0 (by decide) (by decide) (by decide)⟩

/-- C5 counterexample to the claim as stated: with a nonzero derivative
term the claim fails.  Gains `Kp = 1, Kd = 1`, setpoint 1, target velocity
0, previous position -1, interval 100 ms, sensed position 0 (so the
velocity estimate is 10): `u = Kp - 10`, and raising `Kp` from 1 to 2
shrinks `|u|` from 9 to 8 although `setpoint ≠ position`. -/
theorem C5_counterexample :
    (0 : ℚ) < 1 ∧ (1 : ℚ) < 2 ∧ ((1 : ℚ) ≠ ((0 : ℤ) : ℚ)) ∧
    |(ProportionalController.run ⟨2, 1, 1, 0, -1, [], []⟩ 100 0 0).ret| <
      |(ProportionalController.run ⟨1, 1, 1, 0, -1, [], []⟩ 100 0 0).ret| := by
  refine ⟨by decide, by decide, by norm_num, ?_⟩
  simp only [ProportionalController.run,
    show (((0 : ℤ) - -1) * 1000).fdiv 100 = 10 from rfl]
  norm_num

/-- C10.  On the first `run` after construction, the velocity estimate is
computed against the initialized `prev_pos = 0`:
`v = p * 1000 // interval` (floor division), so with nonzero `Kd` the first
actuation includes the derivative term `Kd*(setvel - v)` driven purely by
the initial measured position `p`. -/
theorem C10_first_run_velocity (Kp Kd sp sv : ℚ) (interval elapsed pos : ℤ)
    (hint : 0 < interval) :
    (ProportionalController.run (ProportionalController.init Kp Kd sp sv)
        interval elapsed pos).ret =
      Kp * (sp - (pos : ℚ)) + Kd * (sv - (((pos * 1000).fdiv interval : ℤ) : ℚ)) ∧
    (ProportionalController.run (ProportionalController.init Kp Kd sp sv)
        interval elapsed pos).actuate_arg =
      (ProportionalController.run (ProportionalController.init Kp Kd sp sv)
        interval elapsed pos).ret := by
  constructor
  · show Kp * (sp - (pos : ℚ)) +
        Kd * (sv - ((((pos - (0 : ℤ)) * 1000).fdiv interval : ℤ) : ℚ)) = _
    rw [sub_zero]
  · rfl

/-- Witness for C10: first run with gains 1 and 2, setpoint 0, target
velocity 0, interval 10 ms, initial measured position 7 (velocity estimate
700 although the controller never saw the actuator move). -/
theorem C10_first_run_velocity_witness :
    (0 : ℤ) < 10 ∧
    ((ProportionalController.run (ProportionalController.init 1 2 0 0) 10 0 7).ret =
      1 * ((0 : ℚ) - ((7 : ℤ) : ℚ)) +
        2 * ((0 : ℚ) - ((((7 : ℤ) * 1000).fdiv 10 : ℤ) : ℚ)) ∧
    (ProportionalController.run (ProportionalController.init 1 2 0 0) 10 0 7).actuate_arg =
      (ProportionalController.run (ProportionalController.init 1 2 0 0) 10 0 7).ret) :=
  ⟨by decide, C10_first_run_velocity 1 2 0 0 10 0 7 (by decide)⟩

/-- C6.  Gain validation: `set_Kp` raises an invalid-gain `ValueError`
exactly when the value is non-numeric or non-positive, leaving the stored
gain unchanged when it raises; `set_Kd` raises exactly when the value is
non-numeric; `set_Kp(0)` and `set_Kp(-1)` raise, and setting `Kp = 1`
together with `Kd = 0` succeeds and stores those values. -/
theorem C6_gain_validation (s : PCState) :
    (∀ v : PyNum, (ProportionalController.set_Kp s v).error ≠ none ↔
      (v.isNumber = false ∨ v.val ≤ 0)) ∧
    (∀ v : PyNum, (ProportionalController.set_Kp s v).error ≠ none →
      (ProportionalController.set_Kp s v).state = s) ∧
    ((ProportionalController.set_Kp s (.int 0)).error ≠ none ∧
      (ProportionalController.set_Kp s (.int 0)).state.Kp = s.Kp) ∧
    ((ProportionalController.set_Kp s (.int (-1))).error ≠ none ∧
      (ProportionalController.set_Kp s (.int (-1))).state.Kp = s.Kp) ∧
    (∀ v : PyNum, (ProportionalController.set_Kd s v).error ≠ none ↔
      v.isNumber = false) ∧
    ((ProportionalController.set_Kp s (.int 1)).error = none ∧
      (ProportionalController.set_Kp s (.int 1)).state.Kp = 1) ∧
    ((ProportionalController.set_Kd s (.int 0)).error = none ∧
      (ProportionalController.set_Kd s (.int 0)).state.Kd = 0) := by
  refine ⟨?_, ?_, ?_, ?_, ?_, ?_, ?_⟩
  · intro v
    cases v with
    | int n =>
      by_cases h : n ≤ 0 <;>
        simp [ProportionalController.set_Kp, h, PyNum.isNumber, PyNum.val]
    | float q =>
      by_cases h : q ≤ 0 <;>
        simp [ProportionalController.set_Kp, h, PyNum.isNumber, PyNum.val]
    | nonNumeric str =>
      simp [ProportionalController.set_Kp, PyNum.isNumber]
  · intro v
    cases v with
    | int n =>
      by_cases h : n ≤ 0 <;> simp [ProportionalController.set_Kp, h]
    | float q =>
      by_cases h : q ≤ 0 <;> simp [ProportionalController.set_Kp, h]
    | nonNumeric str =>
      simp [ProportionalController.set_Kp]
  · exact ⟨by simp [ProportionalController.set_Kp], by simp [ProportionalController.set_Kp]⟩
  · constructor
    · simp [ProportionalController.set_Kp]
    · norm_num [ProportionalController.set_Kp]
  · intro v
    cases v <;> simp [ProportionalController.set_Kd, PyNum.isNumber]
  · constructor
    · norm_num [ProportionalController.set_Kp]
    · norm_num [ProportionalController.set_Kp]
  · exact ⟨by simp [ProportionalController.set_Kd], by simp [ProportionalController.set_Kd]⟩

/-! ## Target localizer math (main.py, class turret_gen_class)

`get_center_of_mass` returns a Python float (true division); the division
raises `ZeroDivisionError` when the total mass is zero, modelled as `none`.
`center_of_mass_to_degrees` is real-valued trigonometry over the fixed
geometry constants; `NUM_COLS` is the thermal frame width imported from the
external MLX90640 camera driver (32 columns).
-/

/-- Geometry constant `PERP_DIST_CAMERA_TO_TARGET` (feet). -/
noncomputable def PERP_DIST_CAMERA_TO_TARGET : ℝ := 9

/-- Geometry constant `PERP_DIST_TURRET_TO_TARGET` (feet). -/
noncomputable def PERP_DIST_TURRET_TO_TARGET : ℝ := 17

/-- Geometry constant `CAMERA_FOV_ANGLE` (degrees). -/
noncomputable def CAMERA_FOV_ANGLE : ℝ := 55

/-- Thermal frame width in columns (`mlx_cam.NUM_COLS`, from the external
MLX90640 driver: 32 columns). -/
def NUM_COLS : ℕ := 32

/-- `turret_gen_class.get_center_of_mass(data)`: index-weighted centroid of
one row of integer data; `none` models the `ZeroDivisionError` raised when
the row is nonempty with zero total mass. -/
def turret_gen_class.get_center_of_mass (data : List ℤ) : Option ℚ :=
  if data.length = 0 then some 0
  else
    let weighted_mass : ℤ := (data.enum.map fun p => (p.1 : ℤ) * p.2).sum
    let total_mass : ℤ := data.sum
    if total_mass = 0 then none
    else some ((weighted_mass : ℚ) / (total_mass : ℚ))

/-- `math.radians`. -/
noncomputable def radians (x : ℝ) : ℝ := x * Real.pi / 180

/-- `math.degrees`. -/
noncomputable def degrees (x : ℝ) : ℝ := x * 180 / Real.pi

/-- The turret field of view computed in
`turret_gen_class.center_of_mass_to_degrees`:
`2 * degrees(atan(c * tan(radians(camera_fov / 2)) / t))`. -/
noncomputable def turret_fov (c t camera_fov : ℝ) : ℝ :=
  2 * degrees (Real.arctan ((c * Real.tan (radians (camera_fov / 2))) / t))

/-- `turret_gen_class.center_of_mass_to_degrees(cm)`, generalized over the
geometry constants `c`, `t`, `camera_fov` it reads. -/
noncomputable def turret_gen_class.center_of_mass_to_degrees
    (c t camera_fov cm : ℝ) : ℝ :=
  let tf := turret_fov c t camera_fov
  let dd := tf / (NUM_COLS : ℝ)
  let cm_d := cm * dd
  cm_d - tf / 2

/-- C2 evaluation.  The empty row yields centroid 0 and `[0,10,10,0]`
yields the weighted centroid 3/2, but the all-zero row `[0,0,0,0]` hits the
division `weighted_mass / total_mass` with `total_mass = 0` and raises
`ZeroDivisionError` instead of returning 0. -/
theorem C2_centroid_eval :
    turret_gen_class.get_center_of_mass [] = some 0 ∧
    turret_gen_class.get_center_of_mass [0, 10, 10, 0] = some (3 / 2) ∧
    turret_gen_class.get_center_of_mass [0, 0, 0, 0] = none := by
  refine ⟨?_, ?_, ?_⟩ <;>
    norm_num [turret_gen_class.get_center_of_mass, List.enum, List.enumFrom]

/-- C8.  For every valid geometry (positive distances, camera field of view
strictly between 0 and 180 degrees), a centroid at the exact horizontal
midpoint of the frame (`NUM_COLS / 2` columns) maps to bearing 0. -/
theorem C8_bearing_midpoint (c t camera_fov : ℝ)
    (hc : 0 < c) (ht : 0 < t) (hf0 : 0 < camera_fov) (hf1 : camera_fov < 180) :
    turret_gen_class.center_of_mass_to_degrees c t camera_fov ((NUM_COLS : ℝ) / 2) = 0 := by
  simp only [turret_gen_class.center_of_mass_to_degrees, NUM_COLS]
  push_cast
  ring

/-- Witness for C8 at the configured geometry: camera 9 ft and turret 17 ft
from the target plane, 55 degree camera field of view. -/
theorem C8_bearing_midpoint_witness :
    (0 : ℝ) < PERP_DIST_CAMERA_TO_TARGET ∧
    (0 : ℝ) < PERP_DIST_TURRET_TO_TARGET ∧
    ((0 : ℝ) < CAMERA_FOV_ANGLE ∧ CAMERA_FOV_ANGLE < 180) ∧
    turret_gen_class.center_of_mass_to_degrees PERP_DIST_CAMERA_TO_TARGET
      PERP_DIST_TURRET_TO_TARGET CAMERA_FOV_ANGLE ((NUM_COLS : ℝ) / 2) = 0 :=
  ⟨by norm_num [PERP_DIST_CAMERA_TO_TARGET],
   by norm_num [PERP_DIST_TURRET_TO_TARGET],
   ⟨by norm_num [CAMERA_FOV_ANGLE], by norm_num [CAMERA_FOV_ANGLE]⟩,
   C8_bearing_midpoint PERP_DIST_CAMERA_TO_TARGET PERP_DIST_TURRET_TO_TARGET
     CAMERA_FOV_ANGLE
     (by norm_num [PERP_DIST_CAMERA_TO_TARGET])
     (by norm_num [PERP_DIST_TURRET_TO_TARGET])
     (by norm_num [CAMERA_FOV_ANGLE])
     (by norm_num [CAMERA_FOV_ANGLE])⟩

/-! ## Cooperative task state machines (main.py)

Each generator tick of `rotate_task_gen_fun` / `image_task_gen_fun` is one
step of an explicit state machine.  Shared attributes of the
`turret_gen_class` instance touched by the task are part of the state;
hardware reads (wall clock `utime.ticks_ms()`, sensed encoder position,
camera capture result) are explicit inputs, and values sent to the motor
and servo collaborators during the tick are explicit outputs.
-/

/-- Global constant `MOTOR_CONTROL_INTERVAL` (milliseconds). -/
def MOTOR_CONTROL_INTERVAL : ℤ := 10

/-- Global constant `MOTOR_CONTROL_PERIOD` (milliseconds). -/
def MOTOR_CONTROL_PERIOD : ℤ := 2000

/-- Global constant `MOTOR_ACTUATE_THRESH` (duty cycle %). -/
def MOTOR_ACTUATE_THRESH : ℚ := 15

/-- Global constant `SERVO_WAIT_TIME` (milliseconds). -/
def SERVO_WAIT_TIME : ℤ := 2000

/-- Global constant `SERVO_START_POS` (pulse width, milliseconds). -/
def SERVO_START_POS : ℚ := 2.0

/-- Global constant `SERVO_PULLED_POS` (pulse width, milliseconds). -/
def SERVO_PULLED_POS : ℚ := 1.65

/-- States of the rotate task FSM (`RUN = 5`, `FIRE = 6`). -/
inductive RotFSM where
  | RUN
  | FIRE
deriving DecidableEq

/-- State visible to one tick of the rotate task: its local FSM state and
wait counter plus the shared `turret_gen_class` attributes it touches. -/
structure TurretRotState where
  state : RotFSM
  wait_counter : ℤ
  start_flag : ℤ
  setpoint : ℚ
  pcontrol : PCState
  start_time : ℤ
  servo_pw : ℚ
deriving DecidableEq

/-- Result of one rotate-task tick: the successor state, the duty-cycle
values sent to the motor (via the controller's `actuate`), and the pulse
widths sent to the servo. -/
structure RotStepResult where
  s : TurretRotState
  motor_cmds : List ℚ
  servo_cmds : List ℚ
deriving DecidableEq

/-- One tick of `turret_gen_class.rotate_task_gen_fun`.  `now` is the value
of `utime.ticks_ms()` at this tick and `pos` the encoder position the
controller's `sense` collaborator reports during `pcontrol.run`. -/
def turret_gen_class.rotate_task_step (s : TurretRotState) (now pos : ℤ) :
    RotStepResult :=
  match s.state with
  | RotFSM.RUN =>
    if s.start_flag ≠ 0 then
      let start_time1 := if s.wait_counter = 0 then now else s.start_time
      let wc1 := if s.wait_counter = 0 then s.wait_counter + 1 else s.wait_counter
      let state1 :=
        if wc1 ≥ MOTOR_CONTROL_PERIOD.fdiv MOTOR_CONTROL_INTERVAL then RotFSM.FIRE
        else RotFSM.RUN
      let wc2 :=
        if wc1 ≥ MOTOR_CONTROL_PERIOD.fdiv MOTOR_CONTROL_INTERVAL then 0 else wc1
      let pc1 := ProportionalController.set_setpoint s.pcontrol s.setpoint
      let r := ProportionalController.run pc1 MOTOR_CONTROL_INTERVAL
        (now - start_time1) pos
      { s := { s with
          state := state1,
          wait_counter := wc2 + 1,
          start_time := start_time1,
          pcontrol := r.state },
        motor_cmds := [r.actuate_arg], servo_cmds := [] }
    else
      { s := s, motor_cmds := [], servo_cmds := [] }
  | RotFSM.FIRE =>
    if s.wait_counter = 0 then
      { s := { s with
          servo_pw := SERVO_PULLED_POS,
          wait_counter := s.wait_counter + 1 },
        motor_cmds := [], servo_cmds := [SERVO_PULLED_POS] }
    else if s.wait_counter ≥ SERVO_WAIT_TIME.fdiv MOTOR_CONTROL_INTERVAL then
      { s := { s with
          servo_pw := SERVO_START_POS,
          wait_counter := 0,
          state := RotFSM.RUN,
          start_flag := 0 },
        motor_cmds := [], servo_cmds := [SERVO_START_POS] }
    else
      { s := { s with wait_counter := s.wait_counter + 1 },
        motor_cmds := [], servo_cmds := [] }

/-- States of the image task FSM (`CAPTURE = 7`, `PARSE = 8`). -/
inductive ImgFSM where
  | CAPTURE
  | PARSE
deriving DecidableEq

/-- State visible to one tick of the image task. -/
structure TurretImgState where
  state : ImgFSM
  wait_counter : ℤ
  start_flag : ℤ
  image : Option ℤ
  setpoint : ℚ
deriving DecidableEq

/-- One tick of `turret_gen_class.image_task_gen_fun`.  `parse` is the
target localizer (`self.parse_image` applied to the held frame), `capture`
the result of `self.camera.get_image_nonblocking()` if polled this tick. -/
def turret_gen_class.image_task_step (parse : Option ℤ → ℚ)
    (capture : Option ℤ) (s : TurretImgState) : TurretImgState :=
  match s.state with
  | ImgFSM.CAPTURE =>
    if s.start_flag ≠ 0 then
      match s.image with
      | none => { s with image := capture }
      | some _ => { s with state := ImgFSM.PARSE }
    else s
  | ImgFSM.PARSE =>
    let s1 :=
      if s.wait_counter = 0 then
        { s with
          setpoint := parse s.image,
          wait_counter := s.wait_counter + 1 }
      else if s.wait_counter ≥ MOTOR_CONTROL_PERIOD.fdiv MOTOR_CONTROL_INTERVAL then
        { s with wait_counter := 0 }
      else
        { s with wait_counter := s.wait_counter + 1 }
    { s1 with state := ImgFSM.CAPTURE }

/-- C3 (amended).  In the RUN state with the start flag set, each tick
pushes the current shared setpoint into the controller and runs exactly one
controller step; but the transition RUN to FIRE is guarded only by the tick
counter reaching `MOTOR_CONTROL_PERIOD // MOTOR_CONTROL_INTERVAL` (= 200),
not by the actuation magnitude (`MOTOR_ACTUATE_THRESH` is never consulted),
and the controller still runs on the transition tick. -/
theorem C3_rotate_run_guard (s : TurretRotState) (now pos : ℤ)
    (hs : s.state = RotFSM.RUN) (hf : s.start_flag ≠ 0) :
    (turret_gen_class.rotate_task_step s now pos).s.pcontrol.setpoint = s.setpoint ∧
    (turret_gen_class.rotate_task_step s now pos).motor_cmds =
      [(ProportionalController.run
          (ProportionalController.set_setpoint s.pcontrol s.setpoint)
          MOTOR_CONTROL_INTERVAL
          (now - (if s.wait_counter = 0 then now else s.start_time)) pos).actuate_arg] ∧
    ((turret_gen_class.rotate_task_step s now pos).s.state = RotFSM.FIRE ↔
      MOTOR_CONTROL_PERIOD.fdiv MOTOR_CONTROL_INTERVAL ≤ s.wait_counter) := by
  have hconst : MOTOR_CONTROL_PERIOD.fdiv MOTOR_CONTROL_INTERVAL = (200 : ℤ) := rfl
  refine ⟨?_, ?_, ?_⟩
  · simp only [turret_gen_class.rotate_task_step, hs, hf, ne_eq, not_false_eq_true,
      if_true, ProportionalController.run, ProportionalController.set_setpoint]
  · simp only [turret_gen_class.rotate_task_step, hs, hf, ne_eq, not_false_eq_true,
      if_true]
  · simp only [turret_gen_class.rotate_task_step, hs, hf, ne_eq, not_false_eq_true,
      if_true, hconst]
    split_ifs <;> simp_all <;> omega

/-- Demonstration state for the C3 witness: rotate task in RUN, tick
counter 5, start flag set, shared setpoint 300, gains 1 and 0. -/
def rotDemoState : TurretRotState :=
  ⟨RotFSM.RUN, 5, 1, 300, ⟨1, 0, 0, 0, 0, [], []⟩, 0, 2⟩

/-- Witness for C3 at the concrete state `rotDemoState` (tick counter 5,
start flag set): the setpoint is pushed, one controller step runs, and the
tick does not transition to FIRE. -/
theorem C3_rotate_run_guard_witness :
    (turret_gen_class.rotate_task_step rotDemoState 40 7).s.pcontrol.setpoint =
      rotDemoState.setpoint ∧
    (turret_gen_class.rotate_task_step rotDemoState 40 7).motor_cmds =
      [(ProportionalController.run
          (ProportionalController.set_setpoint rotDemoState.pcontrol rotDemoState.setpoint)
          MOTOR_CONTROL_INTERVAL
          (40 - (if rotDemoState.wait_counter = 0 then 40 else rotDemoState.start_time))
          7).actuate_arg] ∧
    ((turret_gen_class.rotate_task_step rotDemoState 40 7).s.state = RotFSM.FIRE ↔
      MOTOR_CONTROL_PERIOD.fdiv MOTOR_CONTROL_INTERVAL ≤ rotDemoState.wait_counter) :=
  C3_rotate_run_guard rotDemoState 40 7 rfl (by decide)

/-- C3 counterexample to the claim as stated: at tick counter 200 the task
moves RUN to FIRE although the commanded actuation it just issued has
magnitude 1000, far above `MOTOR_ACTUATE_THRESH = 15` (the threshold never
guards the transition). -/
theorem C3_counterexample :
    (turret_gen_class.rotate_task_step
      ⟨RotFSM.RUN, 200, 1, 1000, ⟨1, 0, 0, 0, 0, [], []⟩, 0, 2⟩ 0 0).s.state =
        RotFSM.FIRE ∧
    (turret_gen_class.rotate_task_step
      ⟨RotFSM.RUN, 200, 1, 1000, ⟨1, 0, 0, 0, 0, [], []⟩, 0, 2⟩ 0 0).motor_cmds =
        [1000] ∧
    ¬(|(1000 : ℚ)| < MOTOR_ACTUATE_THRESH) := by
  have hconst : MOTOR_CONTROL_PERIOD.fdiv MOTOR_CONTROL_INTERVAL = (200 : ℤ) := rfl
  refine ⟨?_, ?_, ?_⟩
  · norm_num [turret_gen_class.rotate_task_step, hconst]
  · norm_num [turret_gen_class.rotate_task_step, hconst,
      ProportionalController.run, ProportionalController.set_setpoint]
  · norm_num [MOTOR_ACTUATE_THRESH]

/-- C9 (amended).  A PARSE tick of the image task publishes the localizer
output as the new shared setpoint when its tick counter is 0 (and leaves
the setpoint alone otherwise), returns to CAPTURE, and clears neither the
held frame nor the start flag. -/
theorem C9_image_parse_step (parse : Option ℤ → ℚ) (capture : Option ℤ)
    (s : TurretImgState) (hs : s.state = ImgFSM.PARSE) :
    (turret_gen_class.image_task_step parse capture s).state = ImgFSM.CAPTURE ∧
    (turret_gen_class.image_task_step parse capture s).image = s.image ∧
    (turret_gen_class.image_task_step parse capture s).start_flag = s.start_flag ∧
    (turret_gen_class.image_task_step parse capture s).setpoint =
      (if s.wait_counter = 0 then parse s.image else s.setpoint) := by
  refine ⟨?_, ?_, ?_, ?_⟩ <;>
    simp only [turret_gen_class.image_task_step, hs] <;>
    split_ifs <;> rfl

/-- Demonstration state for the C9 witness: image task in PARSE with tick
counter 0, start flag set, holding frame 5. -/
def imgDemoState : TurretImgState :=
  ⟨ImgFSM.PARSE, 0, 1, some 5, 0⟩

/-- Witness for C9 at the concrete state `imgDemoState` with localizer
output 42. -/
theorem C9_image_parse_step_witness :
    (turret_gen_class.image_task_step (fun _ => 42) none imgDemoState).state =
      ImgFSM.CAPTURE ∧
    (turret_gen_class.image_task_step (fun _ => 42) none imgDemoState).image =
      imgDemoState.image ∧
    (turret_gen_class.image_task_step (fun _ => 42) none imgDemoState).start_flag =
      imgDemoState.start_flag ∧
    (turret_gen_class.image_task_step (fun _ => 42) none imgDemoState).setpoint =
      (if imgDemoState.wait_counter = 0 then (fun _ => (42 : ℚ)) imgDemoState.image
       else imgDemoState.setpoint) :=
  C9_image_parse_step (fun _ => 42) none imgDemoState rfl

/-- C9 counterexample to the claim as stated: after a PARSE tick that
published setpoint 42, the frame is still held (`some 5`), the start flag
is still 1, and on the very next tick the task re-enters PARSE with the
same frame instead of sitting idle in CAPTURE. -/
theorem C9_counterexample :
    (turret_gen_class.image_task_step (fun _ => 42) none
      ⟨ImgFSM.PARSE, 0, 1, some 5, 0⟩).setpoint = 42 ∧
    (turret_gen_class.image_task_step (fun _ => 42) none
      ⟨ImgFSM.PARSE, 0, 1, some 5, 0⟩).image = some 5 ∧
    (turret_gen_class.image_task_step (fun _ => 42) none
      ⟨ImgFSM.PARSE, 0, 1, some 5, 0⟩).start_flag = 1 ∧
    (turret_gen_class.image_task_step (fun _ => 42) none
      (turret_gen_class.image_task_step (fun _ => 42) none
        ⟨ImgFSM.PARSE, 0, 1, some 5, 0⟩)).state = ImgFSM.PARSE := by
  refine ⟨?_, ?_, ?_, ?_⟩ <;> norm_num [turret_gen_class.image_task_step]

/-- Witness for C6 at a concrete controller state: `set_Kp(0)` raises,
`set_Kp(1)` and `set_Kd(0)` succeed. -/
theorem C6_gain_validation_witness :
    (ProportionalController.set_Kp (ProportionalController.init 1 1 0 0)
      (.int 0)).error ≠ none ∧
    (ProportionalController.set_Kp (ProportionalController.init 1 1 0 0)
      (.int 1)).error = none ∧
    (ProportionalController.set_Kd (ProportionalController.init 1 1 0 0)
      (.int 0)).error = none :=
  ⟨(C6_gain_validation (ProportionalController.init 1 1 0 0)).2.2.1.1,
   (C6_gain_validation (ProportionalController.init 1 1 0 0)).2.2.2.2.2.1.1,
   (C6_gain_validation (ProportionalController.init 1 1 0 0)).2.2.2.2.2.2.1⟩
